import Mathlib

/-!
Shallow embedding of the commerce core of the `online-cinema` repository:
the Cart→Order conversion (`create_order`), the order cancel/refund state
machine (`cancel_order`, `refund_order`) and the Stripe webhook processor
(`stripe_webhook`), together with the relational data model they operate on
(`src/database/models/{orders,payments,purchases,carts,movies}.py`,
route handlers in `src/routes/{orders,payments}.py`).

Modelling conventions:
  * The relational store is a `DB` structure of lists of rows; autoincrement
    ids and `created_at` timestamps are drawn from a single monotone counter
    `DB.seq` (each insert uses the current value and bumps it).
  * `DECIMAL(10,2)` money amounts become `Int` (exact decimal arithmetic).
  * A SQLAlchemy session commit that fails (`SQLAlchemyError`) is modelled by
    a `commitFails : Bool` argument: the handlers catch the error, roll back
    (state unchanged) and return the 500 detail string of the source.
  * The UNIQUE (user_id, movie_id) constraint of `purchases`
    (`unique_user_movie_purchase`) is enforced at commit time: a violating
    insert makes the commit fail exactly like `commitFails`.
  * The Stripe gateway is the external boundary: `refund_order` takes a
    `gatewayFails : Bool` for `StripeService.create_refund`, which raises an
    HTTP 400 (`"Stripe refund error: ..."`) on `stripe.error.StripeError`.
  * `HTTPException(status_code, detail)` and the success response bodies are
    both folded into `ApiResult`.
-/

/-- `OrderStatusEnum` from `src/database/models/orders.py`. -/
inductive OrderStatus where
  | pending
  | paid
  | cancelled
deriving DecidableEq, Repr

/-- `PaymentStatusEnum` from `src/database/models/payments.py`. -/
inductive PaymentStatus where
  | successful
  | cancelled
  | refunded
deriving DecidableEq, Repr

instance : BEq OrderStatus := ⟨fun a b => decide (a = b)⟩
instance : BEq PaymentStatus := ⟨fun a b => decide (a = b)⟩

@[simp] theorem beq_orderStatus_iff (a b : OrderStatus) : (a == b) = true ↔ a = b := by
  simp [BEq.beq]

@[simp] theorem beq_paymentStatus_iff (a b : PaymentStatus) : (a == b) = true ↔ a = b := by
  simp [BEq.beq]

/-- Row of `movies` (`MovieModel`): only the columns the commerce core reads. -/
structure Movie where
  id : Nat
  price : Int
deriving DecidableEq, Repr

/-- Row of `carts` (`CartModel`): one cart per user. -/
structure Cart where
  id : Nat
  userId : Nat
deriving DecidableEq, Repr

/-- Row of `cart_items` (`CartItemModel`). -/
structure CartItem where
  cartId : Nat
  movieId : Nat
deriving DecidableEq, Repr

/-- Row of `orders` (`OrderModel`). `total_amount` is nullable in the schema
but always assigned (`total or 0`) by `create_order`, so it is a plain `Int`. -/
structure Order where
  id : Nat
  userId : Nat
  status : OrderStatus
  totalAmount : Int
deriving DecidableEq, Repr

/-- Row of `order_items` (`OrderItemModel`). -/
structure OrderItem where
  id : Nat
  orderId : Nat
  movieId : Nat
deriving DecidableEq, Repr

/-- Row of `payments` (`PaymentModel`). `external_payment_id` is nullable. -/
structure Payment where
  id : Nat
  createdAt : Nat
  amount : Int
  status : PaymentStatus
  externalPaymentId : Option String
  userId : Nat
  orderId : Nat
deriving DecidableEq, Repr

/-- Row of `payment_items` (`PaymentItemModel`). -/
structure PaymentItem where
  priceAtPayment : Int
  paymentId : Nat
  orderItemId : Nat
deriving DecidableEq, Repr

/-- Row of `purchases` (`PurchaseModel`), UNIQUE on (user_id, movie_id). -/
structure Purchase where
  userId : Nat
  movieId : Nat
deriving DecidableEq, Repr

/-- The relational store. `seq` feeds autoincrement ids and `created_at`. -/
structure DB where
  movies : List Movie
  carts : List Cart
  cartItems : List CartItem
  orders : List Order
  orderItems : List OrderItem
  payments : List Payment
  paymentItems : List PaymentItem
  purchases : List Purchase
  seq : Nat
deriving DecidableEq, Repr

/-- Outcome of a route handler: a success body or an `HTTPException`. -/
inductive ApiResult (α : Type) where
  | success (value : α)
  | failure (statusCode : Nat) (detail : String)
deriving DecidableEq, Repr

/-- `CreateOrderResponseSchema` as returned by `create_order` (movies list
abbreviated to the ids; names/prices are read back from the same rows). -/
structure OrderSnapshot where
  id : Nat
  status : OrderStatus
  totalAmount : Int
  movieIds : List Nat
deriving DecidableEq, Repr

namespace DB

/-- `db.query(CartModel).filter(CartModel.user_id == user_id).first()`. -/
def findCart (db : DB) (userId : Nat) : Option Cart :=
  db.carts.find? (fun c => c.userId == userId)

/-- The cart's items, `cart.cart_items`. -/
def itemsOfCart (db : DB) (cartId : Nat) : List CartItem :=
  db.cartItems.filter (fun ci => ci.cartId == cartId)

/-- `db.query(OrderModel).filter_by(id=order_id).first()`. -/
def findOrder (db : DB) (orderId : Nat) : Option Order :=
  db.orders.find? (fun o => o.id == orderId)

/-- `db.query(OrderModel).filter_by(id=order_id, user_id=user_id).first()`
(the `.with_for_update()` row lock is invisible in a sequential model). -/
def findUserOrder (db : DB) (orderId userId : Nat) : Option Order :=
  db.orders.find? (fun o => o.id == orderId && o.userId == userId)

/-- `order.order_items`. -/
def itemsOfOrder (db : DB) (orderId : Nat) : List OrderItem :=
  db.orderItems.filter (fun oi => oi.orderId == orderId)

/-- `item.movie.price`; the FK `order_items.movie_id → movies.id` guarantees
presence, the default 0 is never reached on consistent stores. -/
def moviePrice (db : DB) (movieId : Nat) : Int :=
  ((db.movies.find? (fun m => m.id == movieId)).map Movie.price).getD 0

/-- `OrderModel.total`: `sum(item.movie.price for item in self.order_items
if item.movie)` — the CURRENT catalog price of each item's movie. -/
def orderTotal (db : DB) (orderId : Nat) : Int :=
  (((db.itemsOfOrder orderId).filterMap
    (fun oi => db.movies.find? (fun m => m.id == oi.movieId))).map Movie.price).sum

/-- Whether a Purchase row with this (user_id, movie_id) key exists. -/
def hasPurchase (db : DB) (userId movieId : Nat) : Bool :=
  db.purchases.any (fun p => p.userId == userId && p.movieId == movieId)

end DB

/-- Duplicate (user_id, movie_id) key inside one batch of inserts. -/
def dupPurchaseKey : List Purchase → Bool
  | [] => false
  | p :: rest =>
      rest.any (fun q => q.userId == p.userId && q.movieId == p.movieId)
        || dupPurchaseKey rest

/-- The UNIQUE constraint `unique_user_movie_purchase` rejects the batch:
either a new row collides with a stored row or two new rows collide. -/
def purchaseInsertViolation (db : DB) (news : List Purchase) : Bool :=
  news.any (fun p => db.hasPurchase p.userId p.movieId) || dupPurchaseKey news

/-- `create_order` (`src/routes/orders.py`, POST `/orders/create/`).
`commitFails` models a `SQLAlchemyError` raised inside the `try` block. -/
def create_order (db : DB) (userId : Nat) (commitFails : Bool) :
    ApiResult OrderSnapshot × DB :=
  match db.findCart userId with
  | none => (.failure 404 "Cart not found.", db)
  | some cart =>
    let cartItems := db.itemsOfCart cart.id
    if cartItems.isEmpty then
      (.failure 400 "Cart is empty.", db)
    else if db.orders.any (fun o => o.userId == userId && o.status == .pending) then
      (.failure 400 "You already have an unpaid (pending) order.", db)
    else
      let movieIds := cartItems.map CartItem.movieId
      let existingPurchaseCount :=
        (db.orderItems.filter (fun oi =>
          (db.orders.any (fun o =>
            o.id == oi.orderId && o.userId == userId && o.status == .paid))
          && movieIds.contains oi.movieId)).length
      if existingPurchaseCount > 0 then
        (.failure 409 "Some movies already purchased", db)
      else if commitFails then
        (.failure 500 "Error occurred while trying to create an order.", db)
      else
        let newOrderId := db.seq
        let total :=
          ((db.movies.filter (fun m => movieIds.contains m.id)).map Movie.price).sum
        let newOrder : Order :=
          { id := newOrderId, userId := userId, status := .pending,
            totalAmount := total }
        let newItems := cartItems.enum.map (fun pr =>
          { id := newOrderId + 1 + pr.1, orderId := newOrderId,
            movieId := pr.2.movieId : OrderItem })
        let db' : DB :=
          { db with
            orders := db.orders ++ [newOrder]
            orderItems := db.orderItems ++ newItems
            cartItems := db.cartItems.filter (fun ci => !(ci.cartId == cart.id))
            seq := newOrderId + 1 + cartItems.length }
        (.success { id := newOrderId, status := .pending, totalAmount := total,
                    movieIds := movieIds }, db')

/-- `cancel_order` (`src/routes/orders.py`, POST `/orders/cancel/{order_id}/`). -/
def cancel_order (db : DB) (orderId userId : Nat) (commitFails : Bool) :
    ApiResult String × DB :=
  match db.findUserOrder orderId userId with
  | none => (.failure 404 "Order with given ID was not found.", db)
  | some order =>
    if order.status != .pending then
      if order.status == .paid then
        (.failure 409 "Paid orders cannot be cancelled. Please request a refund.", db)
      else
        (.failure 409 "Order is already cancelled.", db)
    else if commitFails then
      (.failure 500 "Error occurred while trying to cancel the order.", db)
    else
      (.success "Order successfully cancelled.",
       { db with orders := db.orders.map (fun o =>
           if o.id == order.id then { o with status := .cancelled } else o) })

/-- `db.query(PaymentModel).filter_by(order_id=...).order_by(created_at.desc())
.first()`: the stored payment for the order with the greatest `created_at`
(ties keep the earlier row; the model's `seq` clock never produces ties). -/
def latestPayment (db : DB) (orderId : Nat) : Option Payment :=
  (db.payments.filter (fun p => p.orderId == orderId)).foldl
    (fun acc p =>
      match acc with
      | none => some p
      | some q => if p.createdAt > q.createdAt then some p else acc)
    none

/-- `refund_order` (`src/routes/orders.py`, POST `/orders/refund/{order_id}/`).
`gatewayFails` models `StripeService.create_refund` raising on
`stripe.error.StripeError` (an HTTP 400 that propagates before any local
mutation); `commitFails` models a `SQLAlchemyError` at commit, caught and
rolled back. -/
def refund_order (db : DB) (orderId userId : Nat)
    (gatewayFails commitFails : Bool) : ApiResult String × DB :=
  match db.findUserOrder orderId userId with
  | none => (.failure 404 "Order with given ID was not found.", db)
  | some order =>
    if order.status != .paid then
      if order.status == .cancelled then
        (.failure 409 "Cancelled orders cannot be refunded.", db)
      else
        (.failure 409 "Order is not paid.", db)
    else
      match latestPayment db order.id with
      | none => (.failure 400 "No valid payment found to refund.", db)
      | some payment =>
        match payment.externalPaymentId with
        | none => (.failure 400 "No valid payment found to refund.", db)
        | some _extId =>
          if gatewayFails then
            (.failure 400 "Stripe refund error.", db)
          else if commitFails then
            (.failure 500 "Database error during refund processing.", db)
          else
            let movieIds := (db.itemsOfOrder order.id).map OrderItem.movieId
            (.success "Order successfully refunded.",
             { db with
               payments := db.payments.map (fun p =>
                 if p.id == payment.id then { p with status := .refunded } else p)
               orders := db.orders.map (fun o =>
                 if o.id == order.id then { o with status := .cancelled } else o)
               purchases := db.purchases.filter (fun pu =>
                 !(pu.userId == order.userId && movieIds.contains pu.movieId)) })

/-- A parsed, signature-verified Stripe event (`parse_webhook_event` output):
only the fields the handler reads. `checkoutExpired` carries
`metadata.get("order_id")` and `session.get("id")`, both optional. -/
inductive StripeEvent where
  | checkoutCompleted (orderId : Nat) (paymentIntent : Option String)
  | checkoutExpired (orderId : Option Nat) (sessionId : Option String)
  | paymentFailed
  | otherEvent (eventType : String)
deriving DecidableEq, Repr

/-- `stripe_webhook` (`src/routes/payments.py`, POST `/payments/webhook/`),
after signature verification succeeded. `commitFails` models a
`SQLAlchemyError` at `db.commit()` (including the `unique_user_movie_purchase`
IntegrityError, which `purchaseInsertViolation` detects); both branches catch
it, roll back and answer 500. -/
def stripe_webhook (db : DB) (event : StripeEvent) (commitFails : Bool) :
    ApiResult String × DB :=
  match event with
  | .checkoutCompleted orderId paymentIntent =>
    match db.findOrder orderId with
    | none => (.failure 404 "Order not found.", db)
    | some order =>
      let payment : Payment :=
        { id := db.seq, createdAt := db.seq, amount := db.orderTotal order.id,
          status := .successful, externalPaymentId := paymentIntent,
          userId := order.userId, orderId := order.id }
      let items := db.itemsOfOrder order.id
      let newPaymentItems := items.map (fun oi =>
        { priceAtPayment := db.moviePrice oi.movieId, paymentId := payment.id,
          orderItemId := oi.id : PaymentItem })
      let newPurchases := items.map (fun oi =>
        { userId := order.userId, movieId := oi.movieId : Purchase })
      if commitFails || purchaseInsertViolation db newPurchases then
        (.failure 500 "Something went wrong.", db)
      else
        (.success "Webhook handled",
         { db with
           payments := db.payments ++ [payment]
           orders := db.orders.map (fun o =>
             if o.id == order.id then { o with status := .paid } else o)
           paymentItems := db.paymentItems ++ newPaymentItems
           purchases := db.purchases ++ newPurchases
           seq := db.seq + 1 })
  | .checkoutExpired metaOrderId sessionId =>
    match metaOrderId with
    | none => (.success "Webhook handled", db)
    | some oid =>
      match db.findOrder oid with
      | none => (.success "Webhook handled", db)
      | some order =>
        if order.status == .pending then
          if commitFails then
            (.failure 500 "Error occurred while cancelling expired order.", db)
          else
            let payment : Payment :=
              { id := db.seq, createdAt := db.seq,
                amount := db.orderTotal order.id, status := .cancelled,
                externalPaymentId := sessionId, userId := order.userId,
                orderId := order.id }
            (.success "Webhook handled",
             { db with
               payments := db.payments ++ [payment]
               orders := db.orders.map (fun o =>
                 if o.id == order.id then { o with status := .cancelled } else o)
               seq := db.seq + 1 })
        else
          (.success "Webhook handled", db)
  | .paymentFailed => (.success "Webhook handled", db)
  | .otherEvent _ => (.success "Webhook handled", db)

/-- The price-bearing slice of `update_movie` (`src/routes/movies.py`, PATCH):
`setattr(movie, "price", value); db.commit()` — a catalog price change
touching only the `movies` table. -/
def update_movie_price (db : DB) (movieId : Nat) (newPrice : Int) : DB :=
  { db with movies := db.movies.map (fun m =>
      if m.id == movieId then { m with price := newPrice } else m) }

/-- Whether the handler answered with a success body. -/
def ApiResult.isSuccess {α : Type} : ApiResult α → Bool
  | .success _ => true
  | .failure _ _ => false

/-- `total_amount` of the stored order with the given id, if any. -/
def DB.totalAmountOf (db : DB) (orderId : Nat) : Option Int :=
  (db.findOrder orderId).map Order.totalAmount

/-! ### Concrete stores used by witnesses and counterexamples -/

/-- Store right after a first "checkout completed" event: user 7 holds one
PAID order (id 10) over movies 1 and 2, its SUCCESSFUL payment, the two
payment items and the two purchases. -/
def paidDB : DB :=
  { movies := [⟨1, 5⟩, ⟨2, 5⟩], carts := [⟨3, 7⟩], cartItems := [],
    orders := [⟨10, 7, .paid, 10⟩],
    orderItems := [⟨11, 10, 1⟩, ⟨12, 10, 2⟩],
    payments := [⟨13, 13, 10, .successful, some "pi_1", 7, 10⟩],
    paymentItems := [⟨5, 13, 11⟩, ⟨5, 13, 12⟩],
    purchases := [⟨7, 1⟩, ⟨7, 2⟩], seq := 14 }

/-- Store with a fresh cart: user 7's cart (id 3) holds movies 1 and 2. -/
def cartDB : DB :=
  { movies := [⟨1, 5⟩, ⟨2, 5⟩], carts := [⟨3, 7⟩],
    cartItems := [⟨3, 1⟩, ⟨3, 2⟩], orders := [], orderItems := [],
    payments := [], paymentItems := [], purchases := [], seq := 10 }

/-! ### Helper lemmas -/

theorem latestPayment_step_mem {l : List Payment} {acc : Option Payment}
    {p : Payment}
    (h : l.foldl
      (fun acc p =>
        match acc with
        | none => some p
        | some q => if p.createdAt > q.createdAt then some p else acc)
      acc = some p) :
    p ∈ l ∨ acc = some p := by
  induction l generalizing acc with
  | nil => exact Or.inr h
  | cons a t ih =>
    rcases ih h with h1 | h2
    · exact Or.inl (List.mem_cons_of_mem _ h1)
    · cases acc with
      | none =>
        simp only [Option.some.injEq] at h2
        exact Or.inl (h2 ▸ List.mem_cons_self a t)
      | some q =>
        by_cases hgt : a.createdAt > q.createdAt
        · simp only [hgt, if_pos] at h2
          exact Or.inl (by
            simp only [Option.some.injEq] at h2
            exact h2 ▸ List.mem_cons_self a t)
        · simp only [hgt, if_neg, not_false_eq_true] at h2
          exact Or.inr h2

/-- A payment returned by `latestPayment` is a stored payment of that order. -/
theorem latestPayment_mem {db : DB} {orderId : Nat} {p : Payment}
    (h : latestPayment db orderId = some p) :
    p ∈ db.payments ∧ p.orderId = orderId := by
  unfold latestPayment at h
  rcases latestPayment_step_mem h with h1 | h2
  · have := List.mem_filter.mp h1
    exact ⟨this.1, by simpa using this.2⟩
  · cases h2

/-! ### C1 -/

/-- **C1.** For every order already PAID (with its items and their purchases
present, as after the first successful "checkout completed" processing), a
duplicate "checkout completed" webhook event with that order's id leaves the
payments, payment items, purchases and orders tables exactly as they were:
the batch of Purchase inserts violates the `unique_user_movie_purchase`
constraint, the commit fails and the transaction rolls back, so no row is
added and the order stays PAID. -/
theorem C1_duplicate_completed_webhook_noop
    (db : DB) (orderId : Nat) (paymentIntent : Option String)
    (commitFails : Bool) (order : Order)
    (hfind : db.findOrder orderId = some order)
    (_hpaid : order.status = .paid)
    (hne : db.itemsOfOrder order.id ≠ [])
    (hpur : ∀ oi ∈ db.itemsOfOrder order.id,
        db.hasPurchase order.userId oi.movieId = true) :
    (stripe_webhook db (.checkoutCompleted orderId paymentIntent)
        commitFails).2.payments = db.payments ∧
    (stripe_webhook db (.checkoutCompleted orderId paymentIntent)
        commitFails).2.paymentItems = db.paymentItems ∧
    (stripe_webhook db (.checkoutCompleted orderId paymentIntent)
        commitFails).2.purchases = db.purchases ∧
    (stripe_webhook db (.checkoutCompleted orderId paymentIntent)
        commitFails).2.orders = db.orders := by
  have hviol : purchaseInsertViolation db
      ((db.itemsOfOrder order.id).map (fun oi =>
        { userId := order.userId, movieId := oi.movieId : Purchase })) = true := by
    obtain ⟨oi, hoi⟩ : ∃ oi, oi ∈ db.itemsOfOrder order.id := by
      cases h : db.itemsOfOrder order.id with
      | nil => exact absurd h hne
      | cons a l => exact ⟨a, h ▸ List.mem_cons_self a l⟩
    unfold purchaseInsertViolation
    simp only [Bool.or_eq_true, List.any_eq_true]
    exact Or.inl ⟨_, List.mem_map_of_mem _ hoi, hpur oi hoi⟩
  have : stripe_webhook db (.checkoutCompleted orderId paymentIntent)
      commitFails = (.failure 500 "Something went wrong.", db) := by
    unfold stripe_webhook
    dsimp only
    rw [hfind]
    simp only [hviol, Bool.or_true, if_true]
  rw [this]
  exact ⟨rfl, rfl, rfl, rfl⟩

/-- Witness for C1: the duplicate event on the concrete post-payment store
`paidDB` changes none of the four tables. -/
theorem C1_witness :
    (paidDB.findOrder 10 = some ⟨10, 7, .paid, 10⟩ ∧
      (⟨10, 7, .paid, 10⟩ : Order).status = .paid ∧
      paidDB.itemsOfOrder 10 ≠ [] ∧
      ∀ oi ∈ paidDB.itemsOfOrder 10,
        paidDB.hasPurchase 7 oi.movieId = true) ∧
    ((stripe_webhook paidDB (.checkoutCompleted 10 (some "pi_1"))
        false).2.payments = paidDB.payments ∧
      (stripe_webhook paidDB (.checkoutCompleted 10 (some "pi_1"))
        false).2.paymentItems = paidDB.paymentItems ∧
      (stripe_webhook paidDB (.checkoutCompleted 10 (some "pi_1"))
        false).2.purchases = paidDB.purchases ∧
      (stripe_webhook paidDB (.checkoutCompleted 10 (some "pi_1"))
        false).2.orders = paidDB.orders) :=
  ⟨⟨by decide, by decide, by decide, by decide⟩,
    C1_duplicate_completed_webhook_noop paidDB 10 (some "pi_1") false
      ⟨10, 7, .paid, 10⟩ (by decide) (by decide) (by decide) (by decide)⟩

/-! ### C2 -/

/-- **C2.** When `create_order`'s precondition checks pass (a cart exists, it
is non-empty, no PENDING order, no cart movie in a PAID order's items), the
operation either succeeds in one transaction — appending exactly one new
PENDING order for the user with one order item per cart item, deleting every
cart item of that user's cart, and touching no payment or purchase row — or,
on a storage failure at commit, rolls back every effect (the store is
returned unchanged) and reports the generic 500 internal error. -/
theorem C2_create_order_transactional
    (db : DB) (userId : Nat) (cart : Cart)
    (hcart : db.findCart userId = some cart)
    (hne : db.itemsOfCart cart.id ≠ [])
    (hnopending : db.orders.any
      (fun o => o.userId == userId && o.status == .pending) = false)
    (hnopaid : (db.orderItems.filter (fun oi =>
      (db.orders.any (fun o =>
        o.id == oi.orderId && o.userId == userId && o.status == .paid))
      && ((db.itemsOfCart cart.id).map CartItem.movieId).contains
        oi.movieId)).length = 0) :
    (create_order db userId true =
      (.failure 500 "Error occurred while trying to create an order.", db)) ∧
    ((create_order db userId false).1 = .success
      ⟨db.seq, .pending,
        ((db.movies.filter (fun m =>
          ((db.itemsOfCart cart.id).map CartItem.movieId).contains m.id)).map
            Movie.price).sum,
        (db.itemsOfCart cart.id).map CartItem.movieId⟩ ∧
      (create_order db userId false).2.orders = db.orders ++
        [⟨db.seq, userId, .pending,
          ((db.movies.filter (fun m =>
            ((db.itemsOfCart cart.id).map CartItem.movieId).contains m.id)).map
              Movie.price).sum⟩] ∧
      (create_order db userId false).2.orderItems.length =
        db.orderItems.length + (db.itemsOfCart cart.id).length ∧
      (create_order db userId false).2.itemsOfCart cart.id = [] ∧
      (create_order db userId false).2.cartItems =
        db.cartItems.filter (fun ci => !(ci.cartId == cart.id)) ∧
      (create_order db userId false).2.payments = db.payments ∧
      (create_order db userId false).2.purchases = db.purchases) := by
  have hemp : (db.itemsOfCart cart.id).isEmpty = false :=
    List.isEmpty_eq_false.mpr hne
  have hred : ∀ cf : Bool, create_order db userId cf =
      (if cf then
        (.failure 500 "Error occurred while trying to create an order.", db)
      else
        (.success ⟨db.seq, .pending,
          ((db.movies.filter (fun m =>
            ((db.itemsOfCart cart.id).map CartItem.movieId).contains m.id)).map
              Movie.price).sum,
          (db.itemsOfCart cart.id).map CartItem.movieId⟩,
         { db with
           orders := db.orders ++
             [⟨db.seq, userId, .pending,
               ((db.movies.filter (fun m =>
                 ((db.itemsOfCart cart.id).map CartItem.movieId).contains
                   m.id)).map Movie.price).sum⟩]
           orderItems := db.orderItems ++ ((db.itemsOfCart cart.id).enum.map
             (fun pr => (⟨db.seq + 1 + pr.1, db.seq, pr.2.movieId⟩ : OrderItem)))
           cartItems := db.cartItems.filter (fun ci => !(ci.cartId == cart.id))
           seq := db.seq + 1 + (db.itemsOfCart cart.id).length })) := by
    intro cf
    unfold create_order
    rw [hcart]
    dsimp only
    rw [hemp, hnopending, hnopaid]
    cases cf <;> simp
  refine ⟨by rw [hred true]; rfl, ?_, ?_, ?_, ?_, ?_, ?_, ?_⟩
  · rw [hred false]; rfl
  · rw [hred false]; rfl
  · rw [hred false]
    simp [List.enum_length]
  · rw [hred false]
    unfold DB.itemsOfCart
    simp only [if_neg (by decide : ¬false = true)]
    rw [List.filter_filter]
    simp [Bool.and_not_self]
  · rw [hred false]; rfl
  · rw [hred false]; rfl
  · rw [hred false]; rfl

/-- Witness for C2 on the concrete cart store `cartDB`. -/
theorem C2_witness :
    (cartDB.findCart 7 = some ⟨3, 7⟩ ∧
      cartDB.itemsOfCart 3 ≠ [] ∧
      cartDB.orders.any
        (fun o => o.userId == 7 && o.status == .pending) = false ∧
      (cartDB.orderItems.filter (fun oi =>
        (cartDB.orders.any (fun o =>
          o.id == oi.orderId && o.userId == 7 && o.status == .paid))
        && ((cartDB.itemsOfCart 3).map CartItem.movieId).contains
          oi.movieId)).length = 0) ∧
    (create_order cartDB 7 true =
      (.failure 500 "Error occurred while trying to create an order.",
        cartDB)) ∧
    (create_order cartDB 7 false).1 =
      .success ⟨10, .pending, 10, [1, 2]⟩ ∧
    (create_order cartDB 7 false).2.itemsOfCart 3 = [] := by
  refine ⟨⟨by decide, by decide, by decide, by decide⟩, ?_, ?_, ?_⟩
  · exact (C2_create_order_transactional cartDB 7 ⟨3, 7⟩ (by decide)
      (by decide) (by decide) (by decide)).1
  · have h := (C2_create_order_transactional cartDB 7 ⟨3, 7⟩ (by decide)
      (by decide) (by decide) (by decide)).2.1
    rw [h]; decide
  · exact (C2_create_order_transactional cartDB 7 ⟨3, 7⟩ (by decide)
      (by decide) (by decide) (by decide)).2.2.2.2.1

/-! ### C3 -/

/-- **C3.** For a PAID order of the caller whose most recent payment carries
an external payment id, when the gateway refund succeeds and the local commit
succeeds, `refund_order` in one transaction marks that payment REFUNDED,
marks the order CANCELLED, and deletes every Purchase row matching the
order's user and one of the order's item movies — afterwards no Purchase
remains for any (user, movie) pair that was in the order. -/
theorem C3_refund_success_roundtrip
    (db : DB) (orderId userId : Nat) (order : Order) (payment : Payment)
    (extId : String)
    (hfind : db.findUserOrder orderId userId = some order)
    (hpaid : order.status = .paid)
    (hlatest : latestPayment db order.id = some payment)
    (hext : payment.externalPaymentId = some extId) :
    (refund_order db orderId userId false false).1 =
      .success "Order successfully refunded." ∧
    (∀ p ∈ (refund_order db orderId userId false false).2.payments,
      p.id = payment.id → p.status = .refunded) ∧
    (∃ p ∈ (refund_order db orderId userId false false).2.payments,
      p.id = payment.id) ∧
    (∀ o ∈ (refund_order db orderId userId false false).2.orders,
      o.id = order.id → o.status = .cancelled) ∧
    (∀ pu ∈ (refund_order db orderId userId false false).2.purchases,
      pu.userId = order.userId →
        pu.movieId ∉ (db.itemsOfOrder order.id).map OrderItem.movieId) := by
  have hstat : (order.status != OrderStatus.paid) = false := by
    rw [hpaid]; rfl
  have hred : refund_order db orderId userId false false =
      (.success "Order successfully refunded.",
       { db with
         payments := db.payments.map (fun p =>
           if p.id == payment.id then { p with status := .refunded } else p)
         orders := db.orders.map (fun o =>
           if o.id == order.id then { o with status := .cancelled } else o)
         purchases := db.purchases.filter (fun pu =>
           !(pu.userId == order.userId &&
             ((db.itemsOfOrder order.id).map OrderItem.movieId).contains
               pu.movieId)) }) := by
    unfold refund_order
    dsimp only
    rw [hfind]
    dsimp only
    rw [hstat]
    rw [if_neg (by decide : ¬(false = true))]
    rw [hlatest]
    dsimp only
    rw [hext]
    dsimp only
    rw [if_neg (by decide : ¬(false = true)),
      if_neg (by decide : ¬(false = true))]
  refine ⟨by rw [hred], ?_, ?_, ?_, ?_⟩
  · intro p hp hid
    rw [hred] at hp
    dsimp only at hp
    obtain ⟨q, hq, rfl⟩ := List.mem_map.mp hp
    by_cases h : q.id = payment.id
    · simp [h]
    · have hb : ¬((q.id == payment.id) = true) := by simp [h]
      rw [if_neg hb] at hid
      exact absurd hid h
  · have hmem := (latestPayment_mem hlatest).1
    refine ⟨if payment.id == payment.id then
        { payment with status := .refunded } else payment, ?_, ?_⟩
    · rw [hred]
      exact List.mem_map_of_mem _ hmem
    · simp
  · intro o ho hid
    rw [hred] at ho
    dsimp only at ho
    obtain ⟨q, hq, rfl⟩ := List.mem_map.mp ho
    by_cases h : q.id = order.id
    · simp [h]
    · have hb : ¬((q.id == order.id) = true) := by simp [h]
      rw [if_neg hb] at hid
      exact absurd hid h
  · intro pu hpu huid
    rw [hred] at hpu
    dsimp only at hpu
    rcases List.mem_filter.mp hpu with ⟨_, hpred⟩
    intro hmemmap
    simp only [Bool.not_eq_true', Bool.and_eq_false_iff, beq_iff_eq] at hpred
    rcases hpred with h1 | h2
    · simp at h1
      exact h1 huid
    · have : ((db.itemsOfOrder order.id).map OrderItem.movieId).contains
          pu.movieId = true := by
        simpa using hmemmap
      rw [this] at h2
      cases h2

/-- Witness for C3 on the concrete post-payment store `paidDB`. -/
theorem C3_witness :
    (paidDB.findUserOrder 10 7 = some ⟨10, 7, .paid, 10⟩ ∧
      latestPayment paidDB 10 = some ⟨13, 13, 10, .successful, some "pi_1", 7, 10⟩) ∧
    (refund_order paidDB 10 7 false false).1 =
      .success "Order successfully refunded." ∧
    (∀ pu ∈ (refund_order paidDB 10 7 false false).2.purchases,
      pu.userId = 7 → pu.movieId ∉ (paidDB.itemsOfOrder 10).map OrderItem.movieId) := by
  refine ⟨⟨by decide, by decide⟩, ?_, ?_⟩
  · exact (C3_refund_success_roundtrip paidDB 10 7 ⟨10, 7, .paid, 10⟩
      ⟨13, 13, 10, .successful, some "pi_1", 7, 10⟩ "pi_1"
      (by decide) (by decide) (by decide) (by decide)).1
  · exact (C3_refund_success_roundtrip paidDB 10 7 ⟨10, 7, .paid, 10⟩
      ⟨13, 13, 10, .successful, some "pi_1", 7, 10⟩ "pi_1"
      (by decide) (by decide) (by decide) (by decide)).2.2.2.2

/-! ### C4 -/

/-- Store where user 7 holds Purchase(7, 1) but no PAID order mentions movie
1 (the state an external grant or a partially refunded history could leave):
movie 1 sits in the user's cart. -/
def purchaseOnlyDB : DB :=
  { movies := [⟨1, 5⟩], carts := [⟨3, 7⟩], cartItems := [⟨3, 1⟩],
    orders := [], orderItems := [], payments := [], paymentItems := [],
    purchases := [⟨7, 1⟩], seq := 20 }

/-- Counterexample to **C4** as stated: in `purchaseOnlyDB` the cart movie 1
already has a Purchase row for user 7, yet `create_order` does NOT fail with
a Conflict — it succeeds and writes a new order, because the handler's
precondition only queries OrderItems of PAID orders and never consults the
purchases table. -/
theorem C4_counterexample :
    purchaseOnlyDB.hasPurchase 7 1 = true ∧
    (create_order purchaseOnlyDB 7 false).1 =
      .success ⟨20, .pending, 5, [1]⟩ ∧
    (create_order purchaseOnlyDB 7 false).2.orders ≠ [] := by decide

/-- **C4 (amended).** The pre-write conflict check of `create_order` covers
only the PAID-order case: when some cart movie appears among the OrderItems
of one of the user's PAID orders, the call fails with 409 Conflict
("Some movies already purchased") and the store is unchanged. A movie that
merely has a Purchase row (with no PAID order item) is not checked. -/
theorem C4_amended_paid_order_conflict
    (db : DB) (userId : Nat) (cart : Cart) (cf : Bool)
    (hcart : db.findCart userId = some cart)
    (hne : (db.itemsOfCart cart.id).isEmpty = false)
    (hnopending : db.orders.any
      (fun o => o.userId == userId && o.status == .pending) = false)
    (hconflict : 0 < (db.orderItems.filter (fun oi =>
      (db.orders.any (fun o =>
        o.id == oi.orderId && o.userId == userId && o.status == .paid))
      && ((db.itemsOfCart cart.id).map CartItem.movieId).contains
        oi.movieId)).length) :
    create_order db userId cf =
      (.failure 409 "Some movies already purchased", db) := by
  unfold create_order
  rw [hcart]
  dsimp only
  rw [hne, hnopending]
  rw [if_neg (by decide : ¬(false = true)),
    if_neg (by decide : ¬(false = true))]
  rw [if_pos hconflict]

/-- Store with a PAID order for movie 1 and the same movie back in the cart. -/
def paidWithCartDB : DB :=
  { movies := [⟨1, 5⟩], carts := [⟨3, 7⟩], cartItems := [⟨3, 1⟩],
    orders := [⟨10, 7, .paid, 5⟩], orderItems := [⟨11, 10, 1⟩],
    payments := [], paymentItems := [], purchases := [⟨7, 1⟩], seq := 20 }

/-- Witness for the amended C4 on `paidWithCartDB`. -/
theorem C4_witness :
    (paidWithCartDB.findCart 7 = some ⟨3, 7⟩ ∧
      (paidWithCartDB.itemsOfCart 3).isEmpty = false) ∧
    create_order paidWithCartDB 7 false =
      (.failure 409 "Some movies already purchased", paidWithCartDB) :=
  ⟨⟨by decide, by decide⟩,
    C4_amended_paid_order_conflict paidWithCartDB 7 ⟨3, 7⟩ false
      (by decide) (by decide) (by decide) (by decide)⟩

/-! ### C5 -/

/-- Membership in an order list where one id's status was overwritten. -/
theorem orders_update_status_mem {l : List Order} {tid : Nat}
    {s : OrderStatus} {o : Order}
    (ho : o ∈ l.map (fun x => if x.id == tid then { x with status := s } else x)) :
    (o.id = tid → o.status = s) ∧ (o.id ≠ tid → o ∈ l) := by
  obtain ⟨q, hq, rfl⟩ := List.mem_map.mp ho
  by_cases h : q.id = tid
  · refine ⟨fun _ => by simp [h], fun hne => absurd (by simp [h]) hne⟩
  · have hb : ¬((q.id == tid) = true) := by simp [h]
    rw [if_neg hb]
    exact ⟨fun hid => absurd hid h, fun _ => hq⟩

/-- **C5.** `cancel_order` succeeds only for an existing PENDING order of the
caller, setting its status to CANCELLED; a PAID order yields 409 Conflict
with the refund-guidance message, an already-CANCELLED order yields 409
Conflict "Order is already cancelled.", a missing order or one belonging to
another user yields 404 NotFound; in every failure case (including a commit
failure, which rolls back) the store is returned unchanged. -/
theorem C5_cancel_order_state_machine
    (db : DB) (orderId userId : Nat) (cf : Bool) :
    (db.findUserOrder orderId userId = none →
      cancel_order db orderId userId cf =
        (.failure 404 "Order with given ID was not found.", db)) ∧
    (∀ order : Order, db.findUserOrder orderId userId = some order →
      (order.status = .paid →
        cancel_order db orderId userId cf = (.failure 409
          "Paid orders cannot be cancelled. Please request a refund.", db)) ∧
      (order.status = .cancelled →
        cancel_order db orderId userId cf =
          (.failure 409 "Order is already cancelled.", db)) ∧
      (order.status = .pending → cf = true →
        cancel_order db orderId userId cf = (.failure 500
          "Error occurred while trying to cancel the order.", db)) ∧
      (order.status = .pending → cf = false →
        (cancel_order db orderId userId cf).1 =
          .success "Order successfully cancelled." ∧
        (∀ o ∈ (cancel_order db orderId userId cf).2.orders,
          (o.id = order.id → o.status = .cancelled) ∧
          (o.id ≠ order.id → o ∈ db.orders)) ∧
        (cancel_order db orderId userId cf).2.payments = db.payments ∧
        (cancel_order db orderId userId cf).2.purchases = db.purchases)) := by
  constructor
  · intro hnone
    unfold cancel_order
    rw [hnone]
  · intro order hfind
    refine ⟨?_, ?_, ?_, ?_⟩
    · intro hpaid
      unfold cancel_order
      rw [hfind]
      dsimp only
      rw [hpaid]
      rfl
    · intro hcanc
      unfold cancel_order
      rw [hfind]
      dsimp only
      rw [hcanc]
      rfl
    · intro hpend hcf
      subst hcf
      unfold cancel_order
      rw [hfind]
      dsimp only
      rw [hpend]
      rfl
    · intro hpend hcf
      subst hcf
      have hred : cancel_order db orderId userId false =
          (.success "Order successfully cancelled.",
           { db with orders := db.orders.map (fun o =>
               if o.id == order.id then { o with status := .cancelled }
               else o) }) := by
        unfold cancel_order
        rw [hfind]
        dsimp only
        rw [hpend]
        rfl
      refine ⟨by rw [hred], ?_, by rw [hred], by rw [hred]⟩
      intro o ho
      rw [hred] at ho
      exact orders_update_status_mem ho

/-- Store with a PENDING order (id 10) of user 7 plus a PAID order (id 20)
and a CANCELLED order (id 30) of the same user, over movie 1. -/
def threeOrdersDB : DB :=
  { movies := [⟨1, 5⟩], carts := [⟨3, 7⟩], cartItems := [],
    orders := [⟨10, 7, .pending, 5⟩, ⟨20, 7, .paid, 5⟩, ⟨30, 7, .cancelled, 5⟩],
    orderItems := [⟨11, 10, 1⟩, ⟨21, 20, 1⟩, ⟨31, 30, 1⟩],
    payments := [], paymentItems := [], purchases := [], seq := 40 }

/-- Witness for C5: all four outcomes on the concrete store `threeOrdersDB`
(order 99 does not exist, 20 is PAID, 30 is CANCELLED, 10 is PENDING). -/
theorem C5_witness :
    cancel_order threeOrdersDB 99 7 false =
      (.failure 404 "Order with given ID was not found.", threeOrdersDB) ∧
    cancel_order threeOrdersDB 20 7 false = (.failure 409
      "Paid orders cannot be cancelled. Please request a refund.",
      threeOrdersDB) ∧
    cancel_order threeOrdersDB 30 7 false =
      (.failure 409 "Order is already cancelled.", threeOrdersDB) ∧
    cancel_order threeOrdersDB 10 7 true = (.failure 500
      "Error occurred while trying to cancel the order.", threeOrdersDB) ∧
    (cancel_order threeOrdersDB 10 7 false).1 =
      .success "Order successfully cancelled." := by
  refine ⟨?_, ?_, ?_, ?_, ?_⟩
  · exact (C5_cancel_order_state_machine threeOrdersDB 99 7 false).1 (by decide)
  · exact ((C5_cancel_order_state_machine threeOrdersDB 20 7 false).2
      ⟨20, 7, .paid, 5⟩ (by decide)).1 (by decide)
  · exact ((C5_cancel_order_state_machine threeOrdersDB 30 7 false).2
      ⟨30, 7, .cancelled, 5⟩ (by decide)).2.1 (by decide)
  · exact ((C5_cancel_order_state_machine threeOrdersDB 10 7 true).2
      ⟨10, 7, .pending, 5⟩ (by decide)).2.2.1 (by decide) rfl
  · exact (((C5_cancel_order_state_machine threeOrdersDB 10 7 false).2
      ⟨10, 7, .pending, 5⟩ (by decide)).2.2.2 (by decide) rfl).1

/-! ### C6 -/

/-- `create_checkout_session` (`src/routes/payments.py`, POST
`/payments/checkout-session/`): reads the caller's PENDING order and asks
Stripe for a hosted page (`gatewayFails` models the `except Exception`
branch). The handler performs no write at all. -/
def create_checkout_session (db : DB) (userId : Nat) (gatewayFails : Bool) :
    ApiResult String × DB :=
  match db.orders.find? (fun o => o.userId == userId && o.status == .pending) with
  | none => (.failure 404 "No pending order found.", db)
  | some order =>
    if gatewayFails then (.failure 500 "Something went wrong.", db)
    else (.success (String.append "checkout_url_order_" (toString order.id)), db)

/-- Overwriting one order's status never changes any order's
`total_amount` as observed through `find?` by id. -/
theorem findOrder_map_status (l : List Order) (tid : Nat) (s : OrderStatus)
    (oid : Nat) :
    ((l.map (fun x => if x.id == tid then { x with status := s } else x)).find?
      (fun o => o.id == oid)).map Order.totalAmount =
    (l.find? (fun o => o.id == oid)).map Order.totalAmount := by
  rw [List.find?_map]
  have hpred : ((fun o : Order => o.id == oid) ∘
      (fun x : Order => if x.id == tid then { x with status := s } else x)) =
      (fun o : Order => o.id == oid) := by
    funext x
    by_cases h : x.id = tid <;> simp [h]
  rw [hpred, Option.map_map]
  have hamt : (Order.totalAmount ∘
      (fun x : Order => if x.id == tid then { x with status := s } else x)) =
      Order.totalAmount := by
    funext x
    by_cases h : x.id = tid <;> simp [h]
  rw [hamt]

/-- **C6.** `Order.total_amount` is written exactly once, at creation, as the
sum of the referenced movies' catalog prices at that moment; every later
operation of the core — checkout-session creation, either webhook
transition, cancel, refund, a catalog price change, or another order
creation — leaves every stored order's `total_amount` untouched (so it keeps
the creation-time price sum even after movie prices change). -/
theorem C6_total_amount_snapshot (db : DB) :
    (∀ userId cf snap db2, create_order db userId cf = (.success snap, db2) →
      db2.orders = db.orders ++ [⟨snap.id, userId, .pending, snap.totalAmount⟩] ∧
      snap.totalAmount = ((db.movies.filter (fun m =>
        snap.movieIds.contains m.id)).map Movie.price).sum) ∧
    (∀ userId cf oid a, db.totalAmountOf oid = some a →
      (create_order db userId cf).2.totalAmountOf oid = some a) ∧
    (∀ ev cf oid, (stripe_webhook db ev cf).2.totalAmountOf oid =
      db.totalAmountOf oid) ∧
    (∀ orderId userId cf oid,
      (cancel_order db orderId userId cf).2.totalAmountOf oid =
        db.totalAmountOf oid) ∧
    (∀ orderId userId gf cf oid,
      (refund_order db orderId userId gf cf).2.totalAmountOf oid =
        db.totalAmountOf oid) ∧
    (∀ movieId p oid, (update_movie_price db movieId p).totalAmountOf oid =
      db.totalAmountOf oid) ∧
    (∀ userId gf oid, (create_checkout_session db userId gf).2.totalAmountOf oid =
      db.totalAmountOf oid) := by
  refine ⟨?_, ?_, ?_, ?_, ?_, ?_, ?_⟩
  · intro userId cf snap db2 h
    unfold create_order at h
    split at h
    · simp at h
    · dsimp only at h
      split at h
      · simp at h
      · split at h
        · simp at h
        · split at h
          · simp at h
          · split at h
            · simp at h
            · rw [Prod.mk.injEq] at h
              obtain ⟨hs, hdb⟩ := h
              rw [ApiResult.success.injEq] at hs
              subst hs
              subst hdb
              exact ⟨rfl, rfl⟩
  · intro userId cf oid a h
    unfold create_order
    split
    · exact h
    · dsimp only
      split
      · exact h
      · split
        · exact h
        · split
          · exact h
          · split
            · exact h
            · unfold DB.totalAmountOf DB.findOrder at h ⊢
              dsimp only
              rw [List.find?_append]
              obtain ⟨o, ho, hoa⟩ : ∃ o, db.orders.find?
                  (fun o => o.id == oid) = some o ∧ o.totalAmount = a := by
                cases hfo : db.orders.find? (fun o => o.id == oid) with
                | none => rw [hfo] at h; cases h
                | some o =>
                  rw [hfo] at h
                  exact ⟨o, rfl, by simpa using h⟩
              rw [ho]
              simpa using hoa
  · intro ev cf oid
    unfold stripe_webhook
    cases ev with
    | checkoutCompleted orderId pi =>
      dsimp only
      split
      · rfl
      · split
        · rfl
        · unfold DB.totalAmountOf DB.findOrder
          dsimp only
          exact findOrder_map_status db.orders _ _ oid
    | checkoutExpired moid sid =>
      dsimp only
      split
      · rfl
      · split
        · rfl
        · split
          · split
            · rfl
            · unfold DB.totalAmountOf DB.findOrder
              dsimp only
              exact findOrder_map_status db.orders _ _ oid
          · rfl
    | paymentFailed => rfl
    | otherEvent t => rfl
  · intro orderId userId cf oid
    unfold cancel_order
    split
    · rfl
    · split
      · split
        · rfl
        · rfl
      · split
        · rfl
        · unfold DB.totalAmountOf DB.findOrder
          dsimp only
          exact findOrder_map_status db.orders _ _ oid
  · intro orderId userId gf cf oid
    unfold refund_order
    split
    · rfl
    · split
      · split
        · rfl
        · rfl
      · split
        · rfl
        · split
          · rfl
          · split
            · rfl
            · split
              · rfl
              · unfold DB.totalAmountOf DB.findOrder
                dsimp only
                exact findOrder_map_status db.orders _ _ oid
  · intro movieId p oid
    rfl
  · intro userId gf oid
    unfold create_checkout_session
    split
    · rfl
    · split
      · rfl
      · rfl

/-- Witness for C6: creating an order from `cartDB` snapshots total 10 for
order id 10, and a later catalog price change (movie 1 → 999) leaves that
stored `total_amount` untouched. -/
theorem C6_witness :
    ((create_order cartDB 7 false).2.orders = cartDB.orders ++
      [⟨10, 7, .pending, 10⟩] ∧
      (10 : Int) = ((cartDB.movies.filter (fun m =>
        [1, 2].contains m.id)).map Movie.price).sum) ∧
    (update_movie_price (create_order cartDB 7 false).2 1 999).totalAmountOf 10 =
      (create_order cartDB 7 false).2.totalAmountOf 10 ∧
    (create_order cartDB 7 false).2.totalAmountOf 10 = some 10 := by
  refine ⟨?_, ?_, by decide⟩
  · exact (C6_total_amount_snapshot cartDB).1 7 false ⟨10, .pending, 10, [1, 2]⟩
      (create_order cartDB 7 false).2 (by decide)
  · exact (C6_total_amount_snapshot
      (create_order cartDB 7 false).2).2.2.2.2.2.1 1 999 10

/-! ### C7 -/

/-- **C7.** `refund_order` never mutates local state before the gateway
confirms: for a PAID order of the caller, if no Payment row exists, or the
most recent one lacks an external payment id, it fails with 400
"No valid payment found to refund." and the store is unchanged; and when the
gateway refund call fails, it aborts with the gateway's 400 error and the
store — payment statuses, order status, purchases — is exactly as before. -/
theorem C7_refund_aborts_without_mutation
    (db : DB) (orderId userId : Nat) (order : Order)
    (hfind : db.findUserOrder orderId userId = some order)
    (hpaid : order.status = .paid) :
    (latestPayment db order.id = none →
      ∀ gf cf, refund_order db orderId userId gf cf =
        (.failure 400 "No valid payment found to refund.", db)) ∧
    (∀ payment, latestPayment db order.id = some payment →
      payment.externalPaymentId = none →
      ∀ gf cf, refund_order db orderId userId gf cf =
        (.failure 400 "No valid payment found to refund.", db)) ∧
    (∀ payment extId, latestPayment db order.id = some payment →
      payment.externalPaymentId = some extId →
      ∀ cf, refund_order db orderId userId true cf =
        (.failure 400 "Stripe refund error.", db)) := by
  have hstat : (order.status != OrderStatus.paid) = false := by
    rw [hpaid]; rfl
  refine ⟨?_, ?_, ?_⟩
  · intro hnone gf cf
    unfold refund_order
    rw [hfind]
    dsimp only
    rw [hstat]
    rw [if_neg (by decide : ¬(false = true))]
    rw [hnone]
  · intro payment hsome hext gf cf
    unfold refund_order
    rw [hfind]
    dsimp only
    rw [hstat]
    rw [if_neg (by decide : ¬(false = true))]
    rw [hsome]
    dsimp only
    rw [hext]
  · intro payment extId hsome hext cf
    unfold refund_order
    rw [hfind]
    dsimp only
    rw [hstat]
    rw [if_neg (by decide : ¬(false = true))]
    rw [hsome]
    dsimp only
    rw [hext]
    rfl

/-- PAID order of user 7 with no Payment row at all. -/
def paidNoPaymentDB : DB :=
  { movies := [⟨1, 5⟩], carts := [⟨3, 7⟩], cartItems := [],
    orders := [⟨10, 7, .paid, 5⟩], orderItems := [⟨11, 10, 1⟩],
    payments := [], paymentItems := [], purchases := [⟨7, 1⟩], seq := 20 }

/-- PAID order of user 7 whose only Payment has a NULL external id. -/
def paidNullExtDB : DB :=
  { movies := [⟨1, 5⟩], carts := [⟨3, 7⟩], cartItems := [],
    orders := [⟨10, 7, .paid, 5⟩], orderItems := [⟨11, 10, 1⟩],
    payments := [⟨13, 13, 5, .successful, none, 7, 10⟩],
    paymentItems := [], purchases := [⟨7, 1⟩], seq := 20 }

/-- Witness for C7: the three abort paths on concrete stores (no payment row,
NULL external id, gateway failure), each leaving the store untouched. -/
theorem C7_witness :
    refund_order paidNoPaymentDB 10 7 false false =
      (.failure 400 "No valid payment found to refund.", paidNoPaymentDB) ∧
    refund_order paidNullExtDB 10 7 false false =
      (.failure 400 "No valid payment found to refund.", paidNullExtDB) ∧
    refund_order paidDB 10 7 true false =
      (.failure 400 "Stripe refund error.", paidDB) := by
  refine ⟨?_, ?_, ?_⟩
  · exact (C7_refund_aborts_without_mutation paidNoPaymentDB 10 7
      ⟨10, 7, .paid, 5⟩ (by decide) (by decide)).1 (by decide) false false
  · exact (C7_refund_aborts_without_mutation paidNullExtDB 10 7
      ⟨10, 7, .paid, 5⟩ (by decide) (by decide)).2.1
      ⟨13, 13, 5, .successful, none, 7, 10⟩ (by decide) (by decide) false false
  · exact (C7_refund_aborts_without_mutation paidDB 10 7
      ⟨10, 7, .paid, 10⟩ (by decide) (by decide)).2.2
      ⟨13, 13, 10, .successful, some "pi_1", 7, 10⟩ "pi_1"
      (by decide) (by decide) false

/-! ### C8 -/

/-- **C8.** A "checkout expired" webhook event for a PENDING order creates
exactly one CANCELLED-status audit Payment row, sets the order's status to
CANCELLED and creates no Purchase (and no PaymentItem); for an order that is
not PENDING any more (already PAID or CANCELLED), the event changes nothing:
no Payment row is created and the store is returned unchanged. -/
theorem C8_checkout_expired_transitions
    (db : DB) (oid : Nat) (sid : Option String) (order : Order)
    (hfind : db.findOrder oid = some order) :
    (order.status = .pending →
      (stripe_webhook db (.checkoutExpired (some oid) sid) false).1 =
        .success "Webhook handled" ∧
      (stripe_webhook db (.checkoutExpired (some oid) sid) false).2.payments =
        db.payments ++ [⟨db.seq, db.seq, db.orderTotal order.id, .cancelled,
          sid, order.userId, order.id⟩] ∧
      (∀ o ∈ (stripe_webhook db (.checkoutExpired (some oid) sid)
          false).2.orders,
        (o.id = order.id → o.status = .cancelled) ∧
        (o.id ≠ order.id → o ∈ db.orders)) ∧
      (stripe_webhook db (.checkoutExpired (some oid) sid) false).2.purchases =
        db.purchases ∧
      (stripe_webhook db (.checkoutExpired (some oid) sid)
        false).2.paymentItems = db.paymentItems) ∧
    (order.status ≠ .pending → ∀ cf,
      stripe_webhook db (.checkoutExpired (some oid) sid) cf =
        (.success "Webhook handled", db)) := by
  constructor
  · intro hpend
    have hb : (order.status == OrderStatus.pending) = true := by
      rw [hpend]; rfl
    have hred : stripe_webhook db (.checkoutExpired (some oid) sid) false =
        (.success "Webhook handled",
         { db with
           payments := db.payments ++ [⟨db.seq, db.seq,
             db.orderTotal order.id, .cancelled, sid, order.userId, order.id⟩]
           orders := db.orders.map (fun o =>
             if o.id == order.id then { o with status := .cancelled } else o)
           seq := db.seq + 1 }) := by
      unfold stripe_webhook
      dsimp only
      rw [hfind]
      dsimp only
      rw [hb]
      rfl
    refine ⟨by rw [hred], by rw [hred], ?_, by rw [hred], by rw [hred]⟩
    intro o ho
    rw [hred] at ho
    exact orders_update_status_mem ho
  · intro hnp cf
    have hb : (order.status == OrderStatus.pending) = false := by
      cases h2 : order.status
      · exact absurd h2 hnp
      · rfl
      · rfl
    unfold stripe_webhook
    dsimp only
    rw [hfind]
    dsimp only
    rw [hb]
    rfl

/-- PENDING order of user 7 (id 10, movie 1@5) awaiting payment. -/
def pendingDB : DB :=
  { movies := [⟨1, 5⟩], carts := [⟨3, 7⟩], cartItems := [],
    orders := [⟨10, 7, .pending, 5⟩], orderItems := [⟨11, 10, 1⟩],
    payments := [], paymentItems := [], purchases := [], seq := 20 }

/-- Witness for C8: on `pendingDB` the expired event appends one CANCELLED
audit payment and creates no purchase; on the PAID store `paidDB` it is a
complete no-op. -/
theorem C8_witness :
    ((stripe_webhook pendingDB (.checkoutExpired (some 10) (some "cs_1"))
        false).2.payments =
      pendingDB.payments ++ [⟨20, 20, 5, .cancelled, some "cs_1", 7, 10⟩] ∧
      (stripe_webhook pendingDB (.checkoutExpired (some 10) (some "cs_1"))
        false).2.purchases = pendingDB.purchases) ∧
    stripe_webhook paidDB (.checkoutExpired (some 10) (some "cs_1")) false =
      (.success "Webhook handled", paidDB) := by
  refine ⟨⟨?_, ?_⟩, ?_⟩
  · exact ((C8_checkout_expired_transitions pendingDB 10 (some "cs_1")
      ⟨10, 7, .pending, 5⟩ (by decide)).1 (by decide)).2.1
  · exact ((C8_checkout_expired_transitions pendingDB 10 (some "cs_1")
      ⟨10, 7, .pending, 5⟩ (by decide)).1 (by decide)).2.2.2.1
  · exact (C8_checkout_expired_transitions paidDB 10 (some "cs_1")
      ⟨10, 7, .paid, 10⟩ (by decide)).2 (by decide) false

/-! ### C9 -/

/-- Completely empty store. -/
def emptyDB : DB :=
  { movies := [], carts := [], cartItems := [], orders := [], orderItems := [],
    payments := [], paymentItems := [], purchases := [], seq := 0 }

/-- Counterexample to **C9** as stated: a validly-signed "checkout completed"
event whose `order_id` (1) matches no order makes the handler raise 404
"Order not found." instead of answering 200 with the generic "Webhook
handled" acknowledgment. -/
theorem C9_counterexample :
    stripe_webhook emptyDB (.checkoutCompleted 1 none) false =
      (.failure 404 "Order not found.", emptyDB) ∧
    (stripe_webhook emptyDB (.checkoutCompleted 1 none) false).1 ≠
      .success "Webhook handled" := by decide

/-- **C9 (amended).** Once the signature is valid the webhook endpoint
responds 200 "Webhook handled" for event types with no defined transition
("payment failed" and unrecognized types) and for "checkout expired" events
in every order state (when the commit, if any, succeeds); but a "checkout
completed" event whose order id matches no order responds 404, and a failed
commit responds 500, so the response is not 200 for every validly-signed
delivery. -/
theorem C9_amended_webhook_responses (db : DB) :
    (∀ t, stripe_webhook db (.otherEvent t) false =
      (.success "Webhook handled", db)) ∧
    (stripe_webhook db .paymentFailed false =
      (.success "Webhook handled", db)) ∧
    (∀ moid sid, (stripe_webhook db (.checkoutExpired moid sid) false).1 =
      .success "Webhook handled") ∧
    (∀ orderId pi, db.findOrder orderId = none →
      stripe_webhook db (.checkoutCompleted orderId pi) false =
        (.failure 404 "Order not found.", db)) ∧
    (∀ orderId pi order, db.findOrder orderId = some order →
      purchaseInsertViolation db ((db.itemsOfOrder order.id).map (fun oi =>
        ({ userId := order.userId, movieId := oi.movieId } : Purchase))) =
        false →
      (stripe_webhook db (.checkoutCompleted orderId pi) false).1 =
        .success "Webhook handled") ∧
    (∀ orderId pi order, db.findOrder orderId = some order →
      stripe_webhook db (.checkoutCompleted orderId pi) true =
        (.failure 500 "Something went wrong.", db)) ∧
    (∀ oid sid order, db.findOrder oid = some order →
      order.status = .pending →
      stripe_webhook db (.checkoutExpired (some oid) sid) true =
        (.failure 500 "Error occurred while cancelling expired order.",
          db)) := by
  refine ⟨fun t => rfl, rfl, ?_, ?_, ?_, ?_, ?_⟩
  · intro moid sid
    unfold stripe_webhook
    cases moid with
    | none => rfl
    | some oid =>
      dsimp only
      cases hfo : db.findOrder oid with
      | none => rfl
      | some order =>
        dsimp only
        cases hs : (order.status == OrderStatus.pending) <;> simp [hs]
  · intro orderId pi hnone
    unfold stripe_webhook
    dsimp only
    rw [hnone]
  · intro orderId pi order hfind hok
    unfold stripe_webhook
    dsimp only
    rw [hfind]
    dsimp only
    rw [hok]
    rfl
  · intro orderId pi order hfind
    unfold stripe_webhook
    dsimp only
    rw [hfind]
    rfl
  · intro oid sid order hfind hpend
    have hb : (order.status == OrderStatus.pending) = true := by
      rw [hpend]; rfl
    unfold stripe_webhook
    dsimp only
    rw [hfind]
    dsimp only
    rw [hb]
    rfl

/-- Witness for the amended C9 on concrete stores: 200 for an unknown event
type, for "payment failed", for an expired event on a PAID order; 404 for a
completed event with an unknown order; 200 for a completed event actually
processed; 500 for completed and expired events whose commit fails. -/
theorem C9_witness :
    stripe_webhook emptyDB (.otherEvent "invoice.created") false =
      (.success "Webhook handled", emptyDB) ∧
    stripe_webhook emptyDB .paymentFailed false =
      (.success "Webhook handled", emptyDB) ∧
    (stripe_webhook paidDB (.checkoutExpired (some 10) none) false).1 =
      .success "Webhook handled" ∧
    stripe_webhook emptyDB (.checkoutCompleted 1 none) false =
      (.failure 404 "Order not found.", emptyDB) ∧
    (stripe_webhook pendingDB (.checkoutCompleted 10 (some "pi_9")) false).1 =
      .success "Webhook handled" ∧
    stripe_webhook pendingDB (.checkoutCompleted 10 (some "pi_9")) true =
      (.failure 500 "Something went wrong.", pendingDB) ∧
    stripe_webhook pendingDB (.checkoutExpired (some 10) none) true =
      (.failure 500 "Error occurred while cancelling expired order.",
        pendingDB) := by
  refine ⟨?_, ?_, ?_, ?_, ?_, ?_, ?_⟩
  · exact (C9_amended_webhook_responses emptyDB).1 "invoice.created"
  · exact (C9_amended_webhook_responses emptyDB).2.1
  · exact (C9_amended_webhook_responses paidDB).2.2.1 (some 10) none
  · exact (C9_amended_webhook_responses emptyDB).2.2.2.1 1 none (by decide)
  · exact (C9_amended_webhook_responses pendingDB).2.2.2.2.1 10 (some "pi_9")
      ⟨10, 7, .pending, 5⟩ (by decide) (by decide)
  · exact (C9_amended_webhook_responses pendingDB).2.2.2.2.2.1 10
      (some "pi_9") ⟨10, 7, .pending, 5⟩ (by decide)
  · exact (C9_amended_webhook_responses pendingDB).2.2.2.2.2.2 10 none
      ⟨10, 7, .pending, 5⟩ (by decide) (by decide)

/-! ### C10 -/

/-- `cartDB` after converting the cart into order 10 (movies 1, 2 at 5 each,
frozen `total_amount` 10). -/
def dbAfterOrder : DB := (create_order cartDB 7 false).2

/-- `dbAfterOrder` after catalog price changes 5→4 (movie 1) and 5→6
(movie 2): both prices changed but the current sum is still 10. -/
def dbReprice : DB := update_movie_price (update_movie_price dbAfterOrder 1 4) 2 6

/-- Counterexample to **C10**'s consequence as stated: for order 10 both
movie prices changed between creation and payment (5→4 and 5→6), yet the
"checkout completed" Payment's amount (the current-price sum, 10) EQUALS the
frozen `Order.total_amount` (10), because the changes offset. -/
theorem C10_counterexample :
    dbReprice.moviePrice 1 ≠ dbAfterOrder.moviePrice 1 ∧
    dbReprice.moviePrice 2 ≠ dbAfterOrder.moviePrice 2 ∧
    dbAfterOrder.totalAmountOf 10 = some 10 ∧
    (∃ pmt ∈ (stripe_webhook dbReprice (.checkoutCompleted 10 (some "pi_2"))
        false).2.payments, pmt.orderId = 10 ∧ pmt.amount = 10) := by decide

/-- **C10 (amended).** On a "checkout completed" event the Payment's amount
is `OrderModel.total` — the sum of the items' CURRENT catalog prices — and
every created PaymentItem freezes the movie's current price, neither taken
from the frozen `Order.total_amount`; consequently the Payment's amount
differs from `Order.total_amount` exactly when the current-price sum differs
from it (e.g. after any single-item price change), not whenever some price
changed. -/
theorem C10_amended_payment_amount_current_prices
    (db : DB) (orderId : Nat) (pi : Option String) (order : Order)
    (hfind : db.findOrder orderId = some order)
    (hok : purchaseInsertViolation db ((db.itemsOfOrder order.id).map
      (fun oi => ({ userId := order.userId, movieId := oi.movieId } :
        Purchase))) = false) :
    (stripe_webhook db (.checkoutCompleted orderId pi) false).2.payments =
      db.payments ++ [⟨db.seq, db.seq, db.orderTotal order.id, .successful,
        pi, order.userId, order.id⟩] ∧
    (stripe_webhook db (.checkoutCompleted orderId pi) false).2.paymentItems =
      db.paymentItems ++ ((db.itemsOfOrder order.id).map (fun oi =>
        (⟨db.moviePrice oi.movieId, db.seq, oi.id⟩ : PaymentItem))) ∧
    (db.orderTotal order.id ≠ order.totalAmount →
      ∀ pmt ∈ (stripe_webhook db (.checkoutCompleted orderId pi)
          false).2.payments,
        pmt ∉ db.payments → pmt.amount ≠ order.totalAmount) := by
  have hred : stripe_webhook db (.checkoutCompleted orderId pi) false =
      (.success "Webhook handled",
       { db with
         payments := db.payments ++ [⟨db.seq, db.seq,
           db.orderTotal order.id, .successful, pi, order.userId, order.id⟩]
         orders := db.orders.map (fun o =>
           if o.id == order.id then { o with status := .paid } else o)
         paymentItems := db.paymentItems ++ ((db.itemsOfOrder order.id).map
           (fun oi => (⟨db.moviePrice oi.movieId, db.seq, oi.id⟩ :
             PaymentItem)))
         purchases := db.purchases ++ ((db.itemsOfOrder order.id).map
           (fun oi => ({ userId := order.userId, movieId := oi.movieId } :
             Purchase)))
         seq := db.seq + 1 }) := by
    unfold stripe_webhook
    dsimp only
    rw [hfind]
    dsimp only
    rw [hok]
    rfl
  refine ⟨by rw [hred], by rw [hred], ?_⟩
  intro hne pmt hmem hnotold
  rw [hred] at hmem
  dsimp only at hmem
  rcases List.mem_append.mp hmem with hold | hnew
  · exact absurd hold hnotold
  · have : pmt = ⟨db.seq, db.seq, db.orderTotal order.id, .successful, pi,
        order.userId, order.id⟩ := by
      simpa using hnew
    rw [this]
    exact hne

/-- `dbAfterOrder` after changing only movie 1's price 5→4: the current sum
(9) now differs from the frozen total (10). -/
def dbReprice1 : DB := update_movie_price dbAfterOrder 1 4

/-- Witness for the amended C10 on `dbReprice1`: the completed event books a
Payment of 9 (current prices 4+5) against order 10 whose frozen
`total_amount` is 10, and the new payment's amount differs from it. -/
theorem C10_witness :
    (stripe_webhook dbReprice1 (.checkoutCompleted 10 (some "pi_3"))
        false).2.payments =
      dbReprice1.payments ++ [⟨13, 13, 9, .successful, some "pi_3", 7, 10⟩] ∧
    (∀ pmt ∈ (stripe_webhook dbReprice1 (.checkoutCompleted 10 (some "pi_3"))
        false).2.payments,
      pmt ∉ dbReprice1.payments → pmt.amount ≠ (10 : Int)) := by
  constructor
  · have h := (C10_amended_payment_amount_current_prices dbReprice1 10
      (some "pi_3") ⟨10, 7, .pending, 10⟩ (by decide) (by decide)).1
    rw [h]; decide
  · exact (C10_amended_payment_amount_current_prices dbReprice1 10
      (some "pi_3") ⟨10, 7, .pending, 10⟩ (by decide) (by decide)).2.2
      (by decide)
